import Mathlib

/-!
Formal model of the recording routine `record(char *filename)` of the
VS1053-Arduino-Music-Player sketch (`VS1053_experimental.ino`, lines
1063-1240, and the identical copy in the second source file).

The hardware (VS1053 encoder chip, keypad, serial port) is modelled as an
oracle `Env` of read streams: every read of a device register or input
source is drawn from an arbitrary function of the read's index, so a
theorem quantified over `Env` holds for every possible device behaviour.
Register writes performed by `record` (SCI_CLOCKF, SCI_BASS, the soft
resets, SCI_AICTRL3 := 1 on a stop request, ...) send data to the device
but produce no value the routine observes; since the oracle's read
streams are universally quantified (or chosen per scenario), the writes
are recorded as trace events in the configuration phase (`Ev`) and need
no device-state model of their own.

Machine integers: `wordsWaiting`, `data`, `wordsToRead` are `uint16_t`
(reads are masked `% 65536`), `wordsToWrite` is `uint8_t` (values stay
at most 128, so no masking is needed), `rec_state` is `uint8_t` (values
stay at most 3).  `millis()` arithmetic is `uint32_t` (masked `% 2^32`).
-/

/-- Oracle for every read the drain loop performs.  `keyStop n` models
`keypad.getKey()` being truthy at outer iteration `n`; `serialStop n`
models `Serial.available() && Serial.read() == 's'` at iteration `n`;
`hdat1 k`, `aictrl3 k`, `hdat0 k` give the value returned by the k-th
read of registers SCI_HDAT1, SCI_AICTRL3 and SCI_HDAT0 respectively. -/
structure Env where
  keyStop : Nat → Bool
  serialStop : Nat → Bool
  hdat1 : Nat → Nat
  aictrl3 : Nat → Nat
  hdat0 : Nat → Nat

/-- State threaded through the drain loop: `rec_state` is the global
recording state (0 recording, 1 stop requested, 2 draining, 3 finished);
`iter` counts outer loop iterations; the three `Reads` fields count how
many reads of each register stream have happened; `out` is the byte
sequence written to the sink file; `hist` records every value assigned
to `rec_state` after its initialisation to 0, in assignment order. -/
structure RecSt where
  rec_state : Nat
  iter : Nat
  hdat1Reads : Nat
  aictrl3Reads : Nat
  hdat0Reads : Nat
  out : List Nat
  hist : List Nat
deriving DecidableEq, Repr

/-- `rec_state = 0;` at entry, nothing read, nothing written. -/
def initSt : RecSt :=
  { rec_state := 0, iter := 0, hdat1Reads := 0, aictrl3Reads := 0
    hdat0Reads := 0, out := [], hist := [] }

/-- Guard of the drain sub-loop:
`while (wordsWaiting >= ((rec_state < 2) ? 256 : 1))`. -/
def drainGuard (state w : Nat) : Bool :=
  decide ((if state < 2 then 256 else 1) ≤ w)

/-- The per-chunk word count:
`wordsToRead = min(wordsWaiting, 256); wordsWaiting -= wordsToRead;
if (rec_state == 2 && !wordsWaiting) { wordsToRead--; }`. -/
def wordsToReadOf (state w : Nat) : Nat :=
  if state = 2 ∧ w - min w 256 = 0 then min w 256 - 1 else min w 256

/-- `wordsToWrite = wordsToRead / 2;` (integer division). -/
def wordsToWriteOf (state w : Nat) : Nat :=
  wordsToReadOf state w / 2

/-- Bytes staged into `wbuff` by one pass of the inner `j` loop reading
`cnt` words starting at HDAT0 read index `k0`:
`data = Mp3ReadRegister(SCI_HDAT0); wbuff[2*j] = data >> 8;
wbuff[2*j+1] = data & 0xFF;` followed by `file.write(wbuff, 2*cnt)`,
which emits the staged bytes in buffer-index order. -/
def passBytes (env : Env) (k0 : Nat) : Nat → List Nat
  | 0 => []
  | c + 1 =>
      passBytes env k0 c ++
        [env.hdat0 (k0 + c) % 65536 / 256, env.hdat0 (k0 + c) % 65536 % 256]

/-- One of the two `for (i = 0; i < 2; i++)` passes: read `cnt` words
from SCI_HDAT0, stage them, append the staged bytes to the sink. -/
def transferPass (env : Env) (st : RecSt) (cnt : Nat) : RecSt :=
  { st with
    hdat0Reads := st.hdat0Reads + cnt
    out := st.out ++ passBytes env st.hdat0Reads cnt }

/-- Terminal-word handling (the `if (wordsToRead < 256)` branch):
`rec_state = 3;` then read the very last word from SCI_HDAT0, always
write its high byte, read SCI_AICTRL3 twice and write the low byte only
if bit 2 of the second read is clear. -/
def terminalHandle (env : Env) (st : RecSt) : RecSt :=
  let st1 : RecSt := { st with rec_state := 3, hist := st.hist ++ [3] }
  let d := env.hdat0 st1.hdat0Reads % 65536
  let st2 : RecSt :=
    { st1 with hdat0Reads := st1.hdat0Reads + 1, out := st1.out ++ [d / 256] }
  let st3 : RecSt := { st2 with aictrl3Reads := st2.aictrl3Reads + 1 }
  let a := env.aictrl3 st3.aictrl3Reads % 65536
  let st4 : RecSt := { st3 with aictrl3Reads := st3.aictrl3Reads + 1 }
  if a.testBit 2 then st4 else { st4 with out := st4.out ++ [d % 256] }

/-- One executed iteration of the drain sub-loop body: compute the
chunk size, transfer it in the two `for (i = 0; i < 2; i++)` passes of
`wordsToWrite` words each, and run the terminal-word branch when
`wordsToRead < 256`. -/
def drainBody (env : Env) (st : RecSt) (w : Nat) : RecSt :=
  let wtr := wordsToReadOf st.rec_state w
  let wtw := wordsToWriteOf st.rec_state w
  let st1 := transferPass env st wtw
  let st2 := transferPass env st1 wtw
  if wtr < 256 then terminalHandle env st2 else st2

/-- The drain sub-loop, recursing on an explicit bound `fuel` so that
the definition computes by structural recursion.  Each executed
iteration strictly decreases the waiting count `w`, so `fuel = w` never
runs out; `drainLoop` instantiates it so (`drainLoop_unfold` below
recovers the while-loop equation). -/
def drainAux (env : Env) : Nat → RecSt → Nat → RecSt
  | 0, st, _ => st
  | fuel + 1, st, w =>
      if drainGuard st.rec_state w = true then
        drainAux env fuel (drainBody env st w) (w - min w 256)
      else st

/-- The drain sub-loop (`while (wordsWaiting >= ...) { ... }`) on the
local `wordsWaiting` value `w`. -/
def drainLoop (env : Env) (st : RecSt) (w : Nat) : RecSt :=
  drainAux env w st w

/-- `if (stop && !rec_state) { rec_state = 1; Mp3WriteRegister(SCI_AICTRL3, 1); }`
— the shape of both the keypad and the serial stop-request check. -/
def stopCheck (stop : Bool) (st : RecSt) : RecSt :=
  if stop && decide (st.rec_state = 0) then
    { st with rec_state := 1, hist := st.hist ++ [1] }
  else st

/-- `wordsWaiting = Mp3ReadRegister(SCI_HDAT1);` returning the value
read and the advanced read counter. -/
def pollHdat1 (env : Env) (st : RecSt) : Nat × RecSt :=
  (env.hdat1 st.hdat1Reads % 65536, { st with hdat1Reads := st.hdat1Reads + 1 })

/-- `if (rec_state == 1 && Mp3ReadRegister(SCI_AICTRL3) & (1 << 1))
{ rec_state = 2; wordsWaiting = Mp3ReadRegister(SCI_HDAT1); }` —
C short-circuiting reads SCI_AICTRL3 only when `rec_state == 1`. -/
def ackCheck (env : Env) (w : Nat) (st : RecSt) : Nat × RecSt :=
  if st.rec_state = 1 then
    let a := env.aictrl3 st.aictrl3Reads % 65536
    let st1 : RecSt := { st with aictrl3Reads := st.aictrl3Reads + 1 }
    if a.testBit 1 then
      pollHdat1 env { st1 with rec_state := 2, hist := st1.hist ++ [2] }
    else (w, st1)
  else (w, st)

/-- The part of one outer-loop iteration before the drain sub-loop:
keypad stop check, serial stop check, SCI_HDAT1 poll and
stop-acknowledge check (with its SCI_HDAT1 re-read); returns the
`wordsWaiting` value and the state the drain sub-loop starts from. -/
def preDrain (env : Env) (st : RecSt) : Nat × RecSt :=
  let st1 := stopCheck (env.keyStop st.iter) st
  let st2 := stopCheck (env.serialStop st1.iter) st1
  let p := pollHdat1 env st2
  ackCheck env p.1 p.2

/-- One iteration of the outer loop body `while (rec_state < 3) { ... }`:
keypad stop check, serial stop check, SCI_HDAT1 poll, stop-acknowledge
check (with SCI_HDAT1 re-read) and drain sub-loop.  The
`printline(LINE2, ...)` elapsed-time display and the SCI_AICTRL3 := 1
stop-request register write affect nothing the routine later reads. -/
def recStep (env : Env) (st : RecSt) : RecSt :=
  let q := preDrain env st
  let st3 := drainLoop env q.2 q.1
  { st3 with iter := st3.iter + 1 }

/-- One test-and-run of the outer `while (rec_state < 3)` loop. -/
def loopIter (env : Env) (st : RecSt) : RecSt :=
  if st.rec_state < 3 then recStep env st else st

/-- The outer loop, bounded by `fuel` iterations (the source loop has no
bound of its own; it runs until `rec_state` reaches 3). -/
def recLoop (env : Env) : Nat → RecSt → RecSt
  | 0, st => st
  | n + 1, st => recLoop env n (loopIter env st)

/-- Trace events of the configuration phase of `record`, in program
order: steps 1-4 (clock multiplier, bass clear, soft reset, interrupt
setup), the plugin load attempt, the sink open attempt, steps 6-11
(input-mode bits, the two gain registers, the SCI_AICTRL3 stop-flag
clear, the SCI_AIADDR output-format selection), and the teardown (file
close and final soft reset). -/
inductive Ev where
  | wClockf
  | wBass
  | wModeReset
  | wWramaddr
  | wWram
  | loadPlugin
  | openSink (name : String)
  | wModeInput
  | wGain1
  | wGain2
  | wCtrl3Clear
  | wFormat
  | closeSink
  | wModeReset2
deriving DecidableEq, Repr

/-- Collaborator outcomes fixed before the call: whether
`VSLoadUserCode("oggenc.053")` succeeds (the source treats a non-zero
return as failure) and whether `file.open(f, O_RDWR | O_CREAT)`
succeeds for a given name. -/
structure Cfg where
  pluginOk : Bool
  openOk : String → Bool

/-- Result of `record`: the returned code (`none` when the drain loop
has not finished within the given fuel, i.e. the function has not
returned), the configuration/teardown event trace, and the final drain
state. -/
structure RecOut where
  code : Option Nat
  evs : List Ev
  st : RecSt
deriving DecidableEq, Repr

/-- The whole of `record(char *filename)`.  The three bounded-wait
loops on MP3_DREQ sit between the register writes; their guard is
modelled by `dreqWaitGuard` below (they read nothing the rest of the
routine uses).  `filename = none` models a null `char *` pointer. -/
def record (cfg : Cfg) (env : Env) (fuel : Nat) (filename : Option String) :
    RecOut :=
  -- steps 1-4, then step 5: if (VSLoadUserCode("oggenc.053")) return 1;
  let evs := [Ev.wClockf, Ev.wBass, Ev.wModeReset, Ev.wWramaddr, Ev.wWram,
              Ev.loadPlugin]
  if cfg.pluginOk = false then { code := some 1, evs := evs, st := initSt }
  else
    match filename with
    | none => { code := some 3, evs := evs, st := initSt }
    | some f =>
        -- if (!file.open(filename, O_RDWR | O_CREAT)) return 2;
        if cfg.openOk f = false then
          { code := some 2, evs := evs ++ [Ev.openSink f], st := initSt }
        else
          -- steps 6-11: mode bits, gain, stop-flag clear, format select
          let evs := evs ++ [Ev.openSink f, Ev.wModeInput, Ev.wGain1,
                             Ev.wGain2, Ev.wCtrl3Clear, Ev.wFormat]
          let st := recLoop env fuel initSt
          if 3 ≤ st.rec_state then
            -- file.close(); soft reset; return 0;
            { code := some 0, evs := evs ++ [Ev.closeSink, Ev.wModeReset2]
              st := st }
          else { code := none, evs := evs, st := st }

/-- Guard of the three configuration waits
`while (!digitalRead(MP3_DREQ) || millis() - timer > 100UL) {;}`:
`dreq` is the current DREQ reading and `elapsed` the true number of
milliseconds since `timer = millis()`; the subtraction is `uint32_t`.
The loop body runs again exactly when the guard is `true`. -/
def dreqWaitGuard (dreq : Bool) (elapsed : Nat) : Bool :=
  !dreq || decide (elapsed % 4294967296 > 100)

/-! Concrete collaborator behaviours used by the scenario theorems. -/

/-- A trivial device: no stop requests, every register read returns 0. -/
def envT : Env where
  keyStop := fun _ => false
  serialStop := fun _ => false
  hdat1 := fun _ => 0
  aictrl3 := fun _ => 0
  hdat0 := fun _ => 0

/-- Scenario A device: a keypad stop request on the first poll, the
stop-acknowledge bit (bit 1 of SCI_AICTRL3) set on every read, and a
waiting-word count that is always 0. -/
def envA : Env where
  keyStop := fun n => decide (n = 0)
  serialStop := fun _ => false
  hdat1 := fun _ => 0
  aictrl3 := fun _ => 2
  hdat0 := fun _ => 0

/-- Collaborators for the success path: plugin load and sink creation
both succeed. -/
def cfgA : Cfg := { pluginOk := true, openOk := fun _ => true }

/-- Plugin load fails. -/
def cfgNoPlugin : Cfg := { pluginOk := false, openOk := fun _ => true }

/-- Plugin load succeeds, sink creation fails for every name. -/
def cfgNoOpen : Cfg := { pluginOk := true, openOk := fun _ => false }

/-- Scenario C device: keypad stop request from the third iteration on,
SCI_HDAT1 reads returning 300, 300, 40, 40 and then 0, stop-acknowledge
set (bit 1) and terminal-status bit 2 clear on every SCI_AICTRL3 read,
and SCI_HDAT0 returning its own read index. -/
def envC : Env where
  keyStop := fun n => decide (2 ≤ n)
  serialStop := fun _ => false
  hdat1 := fun k => if k < 2 then 300 else if k < 4 then 40 else 0
  aictrl3 := fun _ => 2
  hdat0 := fun k => k

/-- Device for the terminal-word witness: SCI_HDAT0 always returns 517
(high byte 2, low byte 5) and SCI_AICTRL3 always returns 0 (bit 2
clear). -/
def envW : Env where
  keyStop := fun _ => false
  serialStop := fun _ => false
  hdat1 := fun _ => 0
  aictrl3 := fun _ => 0
  hdat0 := fun _ => 517

/-! Basic facts about the drain sub-loop. -/

theorem drainGuard_zero (s : Nat) : drainGuard s 0 = false := by
  simp only [drainGuard, decide_eq_false_iff_not]
  split <;> omega

theorem drainGuard_pos {s w : Nat} (h : drainGuard s w = true) : 1 ≤ w := by
  simp only [drainGuard, decide_eq_true_eq] at h
  split at h <;> omega

theorem drainAux_congr (env : Env) :
    ∀ f₁ f₂ st w, w ≤ f₁ → w ≤ f₂ →
      drainAux env f₁ st w = drainAux env f₂ st w := by
  intro f₁
  induction f₁ with
  | zero =>
      intro f₂ st w h1 _
      have hw : w = 0 := by omega
      subst hw
      cases f₂ with
      | zero => rfl
      | succ g => simp [drainAux, drainGuard_zero]
  | succ f ih =>
      intro f₂ st w h1 h2
      cases f₂ with
      | zero =>
          have hw : w = 0 := by omega
          subst hw
          simp [drainAux, drainGuard_zero]
      | succ g =>
          simp only [drainAux]
          by_cases hg : drainGuard st.rec_state w = true
          · simp only [hg, if_true]
            have hw1 : 1 ≤ w := drainGuard_pos hg
            have hmin : 1 ≤ min w 256 := le_min hw1 (by omega)
            exact ih g _ _ (by omega) (by omega)
          · simp [hg]

theorem drainLoop_unfold (env : Env) (st : RecSt) (w : Nat) :
    drainLoop env st w =
      if drainGuard st.rec_state w = true then
        drainLoop env (drainBody env st w) (w - min w 256)
      else st := by
  cases w with
  | zero => simp [drainLoop, drainAux, drainGuard_zero]
  | succ n =>
      simp only [drainLoop, drainAux]
      by_cases hg : drainGuard st.rec_state (n + 1) = true
      · simp only [hg, if_true]
        have hmin : 1 ≤ min (n + 1) 256 := le_min (by omega) (by omega)
        exact drainAux_congr env n _ _ _ (by omega) (by omega)
      · simp [hg]

theorem drainLoop_zero (env : Env) (st : RecSt) : drainLoop env st 0 = st := by
  rw [drainLoop_unfold]
  simp [drainGuard_zero]

theorem passBytes_length (env : Env) (k0 : Nat) :
    ∀ c, (passBytes env k0 c).length = 2 * c := by
  intro c
  induction c with
  | zero => simp [passBytes]
  | succ n ih => simp [passBytes, ih]; omega

theorem wordsToReadOf_le (s w : Nat) : wordsToReadOf s w ≤ 256 := by
  have h := min_le_right w 256
  simp only [wordsToReadOf]
  split <;> omega

theorem wordsToReadOf_low {s w : Nat} (hs : s < 2) (hw : 256 ≤ w) :
    wordsToReadOf s w = 256 := by
  have h2 : ¬(s = 2) := by omega
  simp [wordsToReadOf, h2, min_eq_right hw]

theorem wordsToReadOf_term {w : Nat} (h256 : w ≤ 256) :
    wordsToReadOf 2 w = w - 1 := by
  simp [wordsToReadOf, min_eq_left h256]

theorem terminalHandle_rec_state (env : Env) (st : RecSt) :
    (terminalHandle env st).rec_state = 3 := by
  by_cases h : (env.aictrl3 (st.aictrl3Reads + 1) % 65536).testBit 2 <;>
    simp [terminalHandle, h]

theorem terminalHandle_hist (env : Env) (st : RecSt) :
    (terminalHandle env st).hist = st.hist ++ [3] := by
  by_cases h : (env.aictrl3 (st.aictrl3Reads + 1) % 65536).testBit 2 <;>
    simp [terminalHandle, h]

theorem terminalHandle_out (env : Env) (st : RecSt) :
    (terminalHandle env st).out =
      st.out ++ [env.hdat0 st.hdat0Reads % 65536 / 256] ++
        (if (env.aictrl3 (st.aictrl3Reads + 1) % 65536).testBit 2 then []
         else [env.hdat0 st.hdat0Reads % 65536 % 256]) := by
  by_cases h : (env.aictrl3 (st.aictrl3Reads + 1) % 65536).testBit 2 <;>
    simp [terminalHandle, h]

theorem transferPass_rec_state (env : Env) (st : RecSt) (cnt : Nat) :
    (transferPass env st cnt).rec_state = st.rec_state := rfl

theorem transferPass_hist (env : Env) (st : RecSt) (cnt : Nat) :
    (transferPass env st cnt).hist = st.hist := rfl

/-- Case analysis of one executed drain iteration: either the chunk is a
full 256-word one and the body only transfers (state and history are
untouched), or the chunk is the terminal one, which can only happen from
state 2 (or the unreachable 3), exhausts the waiting count, and runs the
terminal-word branch. -/
theorem drainBody_cases (env : Env) (st : RecSt) (w : Nat)
    (hg : drainGuard st.rec_state w = true) :
    (¬ wordsToReadOf st.rec_state w < 256 ∧
      (drainBody env st w).rec_state = st.rec_state ∧
      (drainBody env st w).hist = st.hist) ∨
    (wordsToReadOf st.rec_state w < 256 ∧ 2 ≤ st.rec_state ∧
      w - min w 256 = 0 ∧
      (drainBody env st w).rec_state = 3 ∧
      (drainBody env st w).hist = st.hist ++ [3]) := by
  by_cases hlt : wordsToReadOf st.rec_state w < 256
  · right
    have hs2 : 2 ≤ st.rec_state := by
      by_contra hs
      push_neg at hs
      have hw : 256 ≤ w := by
        simp only [drainGuard, decide_eq_true_eq] at hg
        split at hg <;> omega
      rw [wordsToReadOf_low hs hw] at hlt
      omega
    have hw0 : w - min w 256 = 0 := by
      rcases le_or_lt w 256 with h | h
      · have := min_eq_left h
        omega
      · have hmin := min_eq_right (le_of_lt h)
        have hc : ¬(st.rec_state = 2 ∧ w - 256 = 0) := by omega
        simp only [wordsToReadOf] at hlt
        rw [hmin, if_neg hc] at hlt
        omega
    refine ⟨hlt, hs2, hw0, ?_, ?_⟩
    · simp only [drainBody, if_pos hlt]
      rw [terminalHandle_rec_state]
    · simp only [drainBody, if_pos hlt]
      rw [terminalHandle_hist, transferPass_hist, transferPass_hist]
  · left
    refine ⟨hlt, ?_, ?_⟩
    · simp only [drainBody, if_neg hlt]
      rfl
    · simp only [drainBody, if_neg hlt]
      rfl

/-- State and history through a whole run of the drain sub-loop: the
state is untouched, or the loop entered from state 2 (or sat at 3 with
nothing waiting) and finished at 3, appending exactly one `3` to the
assignment history. -/
theorem drainLoop_state_hist (env : Env) :
    ∀ w st, (st.rec_state = 3 → w = 0) →
      ((drainLoop env st w).rec_state = st.rec_state ∧
       (drainLoop env st w).hist = st.hist) ∨
      (2 ≤ st.rec_state ∧ (drainLoop env st w).rec_state = 3 ∧
       (drainLoop env st w).hist = st.hist ++ [3]) := by
  intro w
  induction w using Nat.strong_induction_on with
  | _ w ih =>
    intro st h3w
    rw [drainLoop_unfold]
    by_cases hg : drainGuard st.rec_state w = true
    · rw [if_pos hg]
      have hw1 : 1 ≤ w := drainGuard_pos hg
      have hmin : 1 ≤ min w 256 := le_min hw1 (by omega)
      have hlt : w - min w 256 < w := by omega
      rcases drainBody_cases env st w hg with ⟨_, hst, hh⟩ | ⟨_, hs2, hw0, hst, hh⟩
      · rcases ih (w - min w 256) hlt (drainBody env st w)
            (by intro hc; rw [hst] at hc; omega) with ⟨h1, h2⟩ | ⟨h1, h2, h3⟩
        · exact Or.inl ⟨by rw [h1, hst], by rw [h2, hh]⟩
        · exact Or.inr ⟨by omega, h2, by rw [h3, hh]⟩
      · rw [hw0, drainLoop_zero]
        exact Or.inr ⟨hs2, hst, hh⟩
    · rw [if_neg hg]
      exact Or.inl ⟨rfl, rfl⟩

/-- A full 256-word chunk: in states 0 and 1 (and with ≥ 256 words
waiting) the body transfers two passes of 128 words and loops. -/
theorem drainLoop_full (env : Env) (st : RecSt) (w : Nat)
    (hs : st.rec_state < 2) (hw : 256 ≤ w) :
    drainLoop env st w =
      drainLoop env (transferPass env (transferPass env st 128) 128)
        (w - 256) := by
  rw [drainLoop_unfold]
  have hg : drainGuard st.rec_state w = true := by
    simp only [drainGuard, decide_eq_true_eq]
    split <;> omega
  rw [if_pos hg, min_eq_right hw]
  have hwtr := wordsToReadOf_low hs hw
  have hbody : drainBody env st w =
      transferPass env (transferPass env st 128) 128 := by
    simp only [drainBody, wordsToWriteOf, hwtr]
    norm_num
  rw [hbody]

/-- The terminal chunk: from state 2 with `1 ≤ w ≤ 256` waiting words
the body reduces the chunk to `w - 1` words, transfers two passes of
`(w - 1) / 2` words and runs the terminal-word branch, after which the
waiting count is 0 and the sub-loop exits. -/
theorem drainLoop_terminal (env : Env) (st : RecSt) (w : Nat)
    (h2 : st.rec_state = 2) (h1 : 1 ≤ w) (h256 : w ≤ 256) :
    drainLoop env st w =
      terminalHandle env
        (transferPass env (transferPass env st ((w - 1) / 2))
          ((w - 1) / 2)) := by
  rw [drainLoop_unfold]
  have hg : drainGuard st.rec_state w = true := by
    simp [drainGuard, h2]
    omega
  rw [if_pos hg, min_eq_left h256]
  have hwtr : wordsToReadOf st.rec_state w = w - 1 := by
    rw [h2, wordsToReadOf_term h256]
  have hbody : drainBody env st w =
      terminalHandle env
        (transferPass env (transferPass env st ((w - 1) / 2))
          ((w - 1) / 2)) := by
    simp only [drainBody, wordsToWriteOf, hwtr]
    rw [if_pos (by omega : w - 1 < 256)]
  rw [Nat.sub_self, drainLoop_zero, hbody]

/-! The outer loop: state-machine invariant. -/

/-- Invariant of the outer loop: the state never exceeds 3 and the
sequence of values assigned to `rec_state` so far is exactly
`1, 2, ..., rec_state` — the state only ever stepped upward by one. -/
def StInv (st : RecSt) : Prop :=
  st.rec_state ≤ 3 ∧ st.hist = [1, 2, 3].take st.rec_state

theorem stopCheck_inv (b : Bool) (st : RecSt) (hI : StInv st)
    (hle : st.rec_state ≤ 2) :
    StInv (stopCheck b st) ∧ st.rec_state ≤ (stopCheck b st).rec_state ∧
      (stopCheck b st).rec_state ≤ 2 := by
  obtain ⟨h3, hh⟩ := hI
  unfold stopCheck StInv
  split
  · next h =>
      simp only [Bool.and_eq_true, decide_eq_true_eq] at h
      refine ⟨⟨?_, ?_⟩, ?_, ?_⟩ <;> simp [hh, h.2]
  · exact ⟨⟨h3, hh⟩, le_refl _, hle⟩

theorem ackCheck_inv (env : Env) (w : Nat) (st : RecSt) (hI : StInv st)
    (hle : st.rec_state ≤ 2) :
    StInv (ackCheck env w st).2 ∧ st.rec_state ≤ (ackCheck env w st).2.rec_state ∧
      (ackCheck env w st).2.rec_state ≤ 2 := by
  obtain ⟨h3, hh⟩ := hI
  by_cases h1 : st.rec_state = 1
  · by_cases hb : (env.aictrl3 st.aictrl3Reads % 65536).testBit 1 = true
    · have he : (ackCheck env w st).2 =
          { st with
              rec_state := 2
              hist := st.hist ++ [2]
              aictrl3Reads := st.aictrl3Reads + 1
              hdat1Reads := st.hdat1Reads + 1 } := by
        simp [ackCheck, pollHdat1, h1, hb]
      rw [StInv, he]
      refine ⟨⟨by norm_num, ?_⟩, by norm_num [h1], by norm_num⟩
      simp [hh, h1]
    · have he : (ackCheck env w st).2 =
          { st with aictrl3Reads := st.aictrl3Reads + 1 } := by
        simp [ackCheck, h1, hb]
      rw [StInv, he]
      exact ⟨⟨by simpa using h3, by simpa using hh⟩, by simp, by simpa using hle⟩
  · have he : (ackCheck env w st).2 = st := by simp [ackCheck, h1]
    rw [StInv, he]
    exact ⟨⟨h3, hh⟩, le_refl _, hle⟩

theorem drainLoop_inv (env : Env) (st : RecSt) (w : Nat) (hI : StInv st)
    (hle : st.rec_state ≤ 2) :
    StInv (drainLoop env st w) ∧
      st.rec_state ≤ (drainLoop env st w).rec_state := by
  obtain ⟨h3, hh⟩ := hI
  rcases drainLoop_state_hist env w st (by intro hc; omega) with
    ⟨h1, h2⟩ | ⟨h1, h2, h3'⟩
  · exact ⟨⟨by omega, by rw [h2, h1, hh]⟩, by omega⟩
  · have hs2 : st.rec_state = 2 := by omega
    refine ⟨⟨by omega, ?_⟩, by omega⟩
    rw [h3', hh, hs2, h2]
    rfl

theorem preDrain_inv (env : Env) (st : RecSt) (hI : StInv st)
    (hle : st.rec_state ≤ 2) :
    StInv (preDrain env st).2 ∧ st.rec_state ≤ (preDrain env st).2.rec_state ∧
      (preDrain env st).2.rec_state ≤ 2 := by
  obtain ⟨a1, a2, a3⟩ := stopCheck_inv (env.keyStop st.iter) st hI hle
  obtain ⟨b1, b2, b3⟩ :=
    stopCheck_inv (env.serialStop (stopCheck (env.keyStop st.iter) st).iter)
      (stopCheck (env.keyStop st.iter) st) a1 a3
  obtain ⟨c1, c2, c3⟩ :=
    ackCheck_inv env
      (pollHdat1 env
        (stopCheck (env.serialStop (stopCheck (env.keyStop st.iter) st).iter)
          (stopCheck (env.keyStop st.iter) st))).1
      (pollHdat1 env
        (stopCheck (env.serialStop (stopCheck (env.keyStop st.iter) st).iter)
          (stopCheck (env.keyStop st.iter) st))).2
      b1 b3
  exact ⟨c1, le_trans a2 (le_trans b2 c2), c3⟩

/-- One outer iteration from an unfinished state: the invariant is
preserved and the state never moves backwards. -/
theorem recStep_inv (env : Env) (st : RecSt) (hI : StInv st)
    (hle : st.rec_state ≤ 2) :
    StInv (recStep env st) ∧ st.rec_state ≤ (recStep env st).rec_state := by
  obtain ⟨d1, d2, d3⟩ := preDrain_inv env st hI hle
  obtain ⟨e1, e2⟩ :=
    drainLoop_inv env (preDrain env st).2 (preDrain env st).1 d1 d3
  exact ⟨e1, le_trans d2 e2⟩

theorem recLoop_succ (env : Env) (n : Nat) (st : RecSt) :
    recLoop env (n + 1) st = loopIter env (recLoop env n st) := by
  induction n generalizing st with
  | zero => rfl
  | succ m ih =>
      show recLoop env (m + 1) (loopIter env st) = _
      rw [ih]
      rfl

theorem recLoop_inv (env : Env) :
    ∀ n st, StInv st → StInv (recLoop env n st) := by
  intro n
  induction n with
  | zero => intro st h; exact h
  | succ m ih =>
      intro st h
      show StInv (recLoop env m (loopIter env st))
      apply ih
      unfold loopIter
      split
      · next hlt => exact (recStep_inv env st h (by omega)).1
      · exact h

/-! Claim theorems. -/

/-- Claim C4: during one call to `record`, the recording state
`rec_state` only ever advances in the order 0 → 1 → 2 → 3 and never
regresses or skips backwards, for every sequence of keypad stop
requests, serial stop requests, stop-acknowledge readings and
waiting-word-count readings: after any number of iterations the state
is at most 3, it is monotone from one iteration to the next, and the
full sequence of values ever assigned to it is exactly
`1, 2, ..., rec_state` (the prefix of `[1, 2, 3]` of that length). -/
theorem rec_state_monotone_ordered (env : Env) (n : Nat) :
    (recLoop env n initSt).rec_state ≤ (recLoop env (n + 1) initSt).rec_state ∧
    (recLoop env n initSt).rec_state ≤ 3 ∧
    (recLoop env n initSt).hist =
      [1, 2, 3].take (recLoop env n initSt).rec_state := by
  have hI : StInv (recLoop env n initSt) :=
    recLoop_inv env n initSt ⟨by decide, rfl⟩
  obtain ⟨h3, hh⟩ := hI
  refine ⟨?_, h3, hh⟩
  rw [recLoop_succ]
  unfold loopIter
  split
  · next h => exact (recStep_inv env _ ⟨h3, hh⟩ (by omega)).2
  · exact le_refl _

/-- Claim C6: the drain sub-loop body executes only when the
waiting-word count is at least 256 while the state is 0 or 1, and
executes whenever the count is at least 1 while the state is 2; when
the guard fails the sub-loop leaves the state untouched. -/
theorem drain_subloop_entry_guard (env : Env) (st : RecSt) (w : Nat) :
    ((st.rec_state = 0 ∨ st.rec_state = 1) →
      (drainGuard st.rec_state w = true ↔ 256 ≤ w)) ∧
    (st.rec_state = 2 → (drainGuard st.rec_state w = true ↔ 1 ≤ w)) ∧
    (drainGuard st.rec_state w = false → drainLoop env st w = st) := by
  refine ⟨?_, ?_, ?_⟩
  · intro h
    rcases h with h | h <;> simp [drainGuard, h]
  · intro h
    simp [drainGuard, h]
  · intro h
    rw [drainLoop_unfold, h]
    simp

/-- Witness for C6: in state 2 the guard passes with a single waiting
word. -/
theorem drain_subloop_entry_guard_witness : drainGuard 2 1 = true :=
  ((drain_subloop_entry_guard envT { initSt with rec_state := 2 } 1).2.1
    rfl).mpr (le_refl 1)

/-- Claim C7: in every drain step the per-pass word count
`wordsToWrite` never exceeds the buffer's capacity of 128 words, so
every staged buffer index `2*j` and `2*j + 1` with `j < wordsToWrite`
stays strictly below 256. -/
theorem drain_buffer_capacity (state w : Nat) :
    wordsToWriteOf state w ≤ 128 ∧
    ∀ j, j < wordsToWriteOf state w → 2 * j < 256 ∧ 2 * j + 1 < 256 := by
  have h := wordsToReadOf_le state w
  have h128 : wordsToWriteOf state w ≤ 128 := by
    rw [wordsToWriteOf]
    omega
  exact ⟨h128, fun j hj => ⟨by omega, by omega⟩⟩

/-- Witness for C7 at a 600-word waiting count in state 0. -/
theorem drain_buffer_capacity_witness : 2 * 5 < 256 ∧ 2 * 5 + 1 < 256 :=
  (drain_buffer_capacity 0 600).2 5 (by decide)

/-- Claim C10: whenever the drain sub-loop body executes while the
state is 0 or 1, the chunk size is exactly 256 words, so the terminal
branch — and with it the assignment of state 3 (which would append to
the history) — is unreachable there: the whole sub-loop run leaves
state and history untouched. -/
theorem full_chunk_state_invariant (env : Env) (st : RecSt) (w : Nat)
    (hs : st.rec_state < 2) (hg : drainGuard st.rec_state w = true) :
    wordsToReadOf st.rec_state w = 256 ∧
    (drainLoop env st w).rec_state = st.rec_state ∧
    (drainLoop env st w).hist = st.hist := by
  have hw : 256 ≤ w := by
    simp only [drainGuard, decide_eq_true_eq] at hg
    split at hg <;> omega
  refine ⟨wordsToReadOf_low hs hw, ?_⟩
  rcases drainLoop_state_hist env w st (by intro hc; omega) with
    ⟨ha, hb⟩ | ⟨ha, _, _⟩
  · exact ⟨ha, hb⟩
  · omega

/-- Witness for C10 with 300 waiting words in state 0. -/
theorem full_chunk_state_invariant_witness :
    wordsToReadOf 0 300 = 256 ∧ (drainLoop envT initSt 300).rec_state = 0 ∧
      (drainLoop envT initSt 300).hist = [] :=
  full_chunk_state_invariant envT initSt 300 (by decide) (by decide)

/-- Claim C1: whenever the drain loop reaches the terminal chunk (state
2 with `1 ≤ w ≤ 256` waiting words at the sub-loop entry), the bytes
appended to the sink are the two normal transfer passes followed by the
high byte of the final word — always — and then the low byte exactly
when bit 2 of the second of the two successive SCI_AICTRL3 reads is
clear; so the terminal word contributes exactly one byte when that bit
is set and exactly two when it is clear. -/
theorem terminal_word_byte_parity (env : Env) (st : RecSt) (w wtw d : Nat)
    (h2 : st.rec_state = 2) (h1 : 1 ≤ w) (h256 : w ≤ 256)
    (hwtw : wtw = (w - 1) / 2)
    (hd : d = env.hdat0 (st.hdat0Reads + 2 * wtw) % 65536) :
    (drainLoop env st w).out =
      st.out ++ passBytes env st.hdat0Reads wtw ++
        passBytes env (st.hdat0Reads + wtw) wtw ++ [d / 256] ++
        (if (env.aictrl3 (st.aictrl3Reads + 1) % 65536).testBit 2 then []
         else [d % 256]) ∧
    (drainLoop env st w).out.length =
      st.out.length + 4 * wtw +
        (if (env.aictrl3 (st.aictrl3Reads + 1) % 65536).testBit 2 then 1
         else 2) := by
  subst hwtw
  subst hd
  have hout : (drainLoop env st w).out =
      st.out ++ passBytes env st.hdat0Reads ((w - 1) / 2) ++
        passBytes env (st.hdat0Reads + (w - 1) / 2) ((w - 1) / 2) ++
        [env.hdat0 (st.hdat0Reads + 2 * ((w - 1) / 2)) % 65536 / 256] ++
        (if (env.aictrl3 (st.aictrl3Reads + 1) % 65536).testBit 2 then []
         else [env.hdat0 (st.hdat0Reads + 2 * ((w - 1) / 2)) % 65536 % 256]) := by
    rw [drainLoop_terminal env st w h2 h1 h256, terminalHandle_out]
    simp [transferPass, two_mul, Nat.add_assoc, List.append_assoc]
  refine ⟨hout, ?_⟩
  rw [hout]
  by_cases hbit : (env.aictrl3 (st.aictrl3Reads + 1) % 65536).testBit 2 = true <;>
    simp [hbit, passBytes_length] <;> omega

/-- Witness for C1: state 2 with five waiting words, every SCI_HDAT0
read returning 517 (bytes 2 and 5) and bit 2 of SCI_AICTRL3 clear:
four words move in the two passes and the terminal word contributes
both bytes, ten bytes in all. -/
theorem terminal_word_byte_parity_witness :
    (drainLoop envW { initSt with rec_state := 2 } 5).out =
      [2, 5, 2, 5, 2, 5, 2, 5, 2, 5] := by
  have h := (terminal_word_byte_parity envW { initSt with rec_state := 2 }
    5 2 517 rfl (by norm_num) (by norm_num) (by norm_num) rfl).1
  rw [h]
  decide

set_option maxRecDepth 10000 in
/-- Claim C2 (code evaluated at the failing input): on the scenario-C
trace (polls 300, 300, then 40 with the stop request landing on the
third iteration) the code writes the two full 256-word chunks (1024
bytes) while still in state 0, then enters state 2 and the terminal
chunk; but the final 40-word chunk transfers only `2 * ((40 - 1) / 2)
= 38` words (76 bytes) before the terminal word, so with bit 2 clear
the file ends at 1102 bytes — not the 1104 the claim's "39 words
transferred normally (78 bytes)" requires — and only 551 of the 552
words the accounting drained are ever read from SCI_HDAT0. -/
theorem scenario_c_word_drop :
    (recLoop envC 2 initSt).rec_state = 0 ∧
    (recLoop envC 2 initSt).out.length = 1024 ∧
    (recLoop envC 3 initSt).rec_state = 3 ∧
    (recLoop envC 3 initSt).hist = [1, 2, 3] ∧
    (recLoop envC 3 initSt).out.length = 1102 ∧
    (recLoop envC 3 initSt).hdat0Reads = 551 := by
  decide

/-- Claim C3 (code evaluated at the failing input): the guard of the
three configuration waits, `while (!digitalRead(MP3_DREQ) ||
millis() - timer > 100UL) {;}`, keeps the loop spinning once more than
100 ms have elapsed even when DREQ reads high (first two conjuncts),
while before the deadline it spins on low DREQ and exits on high (next
two); in general the loop body stops running only at a moment when DREQ
is high and at most 100 ms (mod 2^32) have elapsed, so a DREQ that is
still low at the deadline blocks the routine unboundedly instead of
being cut off at 100 ms. -/
theorem dreq_wait_guard_unbounded :
    dreqWaitGuard true 150 = true ∧ dreqWaitGuard false 150 = true ∧
    dreqWaitGuard false 50 = true ∧ dreqWaitGuard true 50 = false ∧
    (∀ dreq e, dreqWaitGuard dreq e = false ↔
      dreq = true ∧ e % 4294967296 ≤ 100) := by
  refine ⟨by decide, by decide, by decide, by decide, ?_⟩
  intro dreq e
  cases dreq <;> simp [dreqWaitGuard]

/-- Scenario A runs into a fixed point: after the first iteration
(stop request, acknowledge, re-read returning 0) every further
iteration only polls SCI_HDAT1 once and changes nothing else. -/
theorem scenarioA_closed (n : Nat) :
    recLoop envA (n + 1) initSt =
      { rec_state := 2
        iter := n + 1
        hdat1Reads := n + 2
        aictrl3Reads := 1
        hdat0Reads := 0
        out := []
        hist := [1, 2] } := by
  induction n with
  | zero => decide
  | succ m ih =>
      rw [recLoop_succ, ih]
      simp [loopIter, recStep, preDrain, stopCheck, pollHdat1, ackCheck, envA,
        drainLoop_zero]

/-- Claim C5 (amended): with plugin load and sink creation succeeding,
a stop request on the first poll, the stop-acknowledge bit then
observed, and the device never reporting a waiting-word count above 0,
`record` never terminates: the loop reaches state 2 during its first
iteration and stays there for every number of further iterations, no
byte is ever written, and no outcome (in particular not Success) is
ever returned — state 3 and the 0-or-1-byte file of the original claim
are never reached, because the terminal-word handling is only reachable
through the drain sub-loop, whose state-2 guard needs at least one
waiting word. -/
theorem scenario_a_never_terminates (n : Nat) :
    (record cfgA envA n (some "REC.OGG")).code = none ∧
    (recLoop envA (n + 1) initSt).rec_state = 2 ∧
    (recLoop envA (n + 1) initSt).out = [] := by
  refine ⟨?_, ?_, ?_⟩
  · cases n with
    | zero => decide
    | succ m =>
        have h := scenarioA_closed m
        simp [record, cfgA, h]
  · rw [scenarioA_closed]
  · rw [scenarioA_closed]

set_option maxRecDepth 10000 in
/-- Counterexample to C5 as stated: on the scenario-A collaborators the
call has still not returned Success after 50 loop iterations — it sits
in state 2 (states 0, 1, 2 visited, 3 never) with an empty output
file. -/
theorem scenario_a_stuck_eval :
    (record cfgA envA 50 (some "REC.OGG")).code = none ∧
    (recLoop envA 50 initSt).rec_state = 2 ∧
    (recLoop envA 50 initSt).out = [] ∧
    (recLoop envA 50 initSt).hist = [1, 2] := by
  decide

/-- Claim C8: plugin loading strictly precedes sink creation; a failed
plugin load returns 1 with no sink-open attempt and none of the
input/gain/format configuration writes; a failed sink creation returns
2 with the plugin load already in the trace (immediately before the
open attempt) and again none of the input/gain/format writes; both
paths return with the drain loop never entered (the drain state is
still the initial one). -/
theorem record_failure_ordering (cfg : Cfg) (env : Env) (fuel : Nat)
    (fn : Option String) (f : String) :
    (cfg.pluginOk = false →
      (record cfg env fuel fn).code = some 1 ∧
      (record cfg env fuel fn).evs =
        [Ev.wClockf, Ev.wBass, Ev.wModeReset, Ev.wWramaddr, Ev.wWram,
         Ev.loadPlugin] ∧
      (∀ g, Ev.openSink g ∉ (record cfg env fuel fn).evs) ∧
      Ev.wModeInput ∉ (record cfg env fuel fn).evs ∧
      Ev.wGain1 ∉ (record cfg env fuel fn).evs ∧
      Ev.wGain2 ∉ (record cfg env fuel fn).evs ∧
      Ev.wFormat ∉ (record cfg env fuel fn).evs ∧
      (record cfg env fuel fn).st = initSt) ∧
    (cfg.pluginOk = true → cfg.openOk f = false →
      (record cfg env fuel (some f)).code = some 2 ∧
      (record cfg env fuel (some f)).evs =
        [Ev.wClockf, Ev.wBass, Ev.wModeReset, Ev.wWramaddr, Ev.wWram,
         Ev.loadPlugin, Ev.openSink f] ∧
      Ev.wModeInput ∉ (record cfg env fuel (some f)).evs ∧
      Ev.wGain1 ∉ (record cfg env fuel (some f)).evs ∧
      Ev.wGain2 ∉ (record cfg env fuel (some f)).evs ∧
      Ev.wFormat ∉ (record cfg env fuel (some f)).evs ∧
      (record cfg env fuel (some f)).st = initSt) := by
  constructor
  · intro hp
    cases fn with
    | none => simp [record, hp]
    | some s => simp [record, hp]
  · intro hp ho
    simp [record, hp, ho]

/-- Witness for C8: concrete collaborators in which the plugin load
fails (code 1) and in which the sink creation fails (code 2). -/
theorem record_failure_ordering_witness :
    (record cfgNoPlugin envT 0 (some "A")).code = some 1 ∧
    (record cfgNoOpen envT 0 (some "A")).code = some 2 :=
  ⟨((record_failure_ordering cfgNoPlugin envT 0 (some "A") "A").1 rfl).1,
   ((record_failure_ordering cfgNoOpen envT 0 (some "A") "A").2 rfl rfl).1⟩

/-- Counterexample to C9 as stated: an empty but non-null filename is
not rejected with NoFilenameGiven (3) — the null check `if (filename)`
passes for an empty C string, so the name goes to sink creation and a
failing open returns SinkCreateFailed (2). -/
theorem empty_filename_not_code3 :
    (record cfgNoOpen envT 5 (some "")).code = some 2 := by
  decide

/-- Claim C9 (amended): `record` returns NoFilenameGiven (3) iff the
plugin load succeeded and the filename argument is null (`none`); an
empty non-null filename instead proceeds to sink creation.  When the
filename is null no sink creation is attempted, and for every non-null
filename the outcome, when the loop terminates, is Success (0),
PluginLoadFailed (1) or SinkCreateFailed (2) — `none` standing for a
call that has not returned. -/
theorem no_filename_outcome (cfg : Cfg) (env : Env) (fuel : Nat)
    (fn : Option String) (f : String) :
    ((record cfg env fuel fn).code = some 3 ↔
      cfg.pluginOk = true ∧ fn = none) ∧
    (fn = none → ∀ g, Ev.openSink g ∉ (record cfg env fuel fn).evs) ∧
    (fn = some f →
      (record cfg env fuel fn).code = none ∨
      (record cfg env fuel fn).code = some 0 ∨
      (record cfg env fuel fn).code = some 1 ∨
      (record cfg env fuel fn).code = some 2) := by
  cases hp : cfg.pluginOk with
  | false =>
      cases fn with
      | none => simp [record, hp]
      | some s => simp [record, hp]
  | true =>
      cases fn with
      | none => simp [record, hp]
      | some s =>
          cases ho : cfg.openOk s with
          | false => simp [record, hp, ho]
          | true =>
              by_cases hs : 3 ≤ (recLoop env fuel initSt).rec_state
              · simp [record, hp, ho, hs]
              · simp [record, hp, ho, hs]

/-- Witness for C9: the null-filename path with a loadable plugin does
return code 3. -/
theorem no_filename_outcome_witness :
    (record cfgA envT 0 none).code = some 3 :=
  ((no_filename_outcome cfgA envT 0 none "X").1).mpr ⟨rfl, rfl⟩
